import Mathlib

/-
Verification of the zAi Bluesky bot notification loop.

The development shallowly embeds the two variants of the bot:
  * the desktop variant (bot.py), with a durable de-dup file mirrored by an
    in-memory set, and
  * the server variant (server.py), with only an in-run de-dup set and a
    server-side read flag.

Optional attributes of duck-typed Python objects are modelled with Option;
a raised exception that escapes the per-notification work is modelled with
an explicit exn constructor carrying the state and events produced so far.
External collaborators (Bluesky thread fetch, model completion, reply post)
are modelled as oracle functions supplied in an environment record.
-/

namespace ZAi

/-! ## Text helpers modelling Python string operations -/

/-- Whitespace characters removed by the Python str.strip call. -/
def py_is_space (c : Char) : Bool :=
  c == ' ' || c == '\t' || c == '\n' || c == '\r' || c == '\x0b' || c == '\x0c'

/-- Python str.strip on a list of code points: drop whitespace from both ends. -/
def py_strip_chars (l : List Char) : List Char :=
  ((l.dropWhile py_is_space).reverse.dropWhile py_is_space).reverse

/-- Python str.strip lifted to strings. -/
def py_strip (s : String) : String :=
  ⟨py_strip_chars s.data⟩

/-- The reply length guard of both variants:
if len(reply_text) greater than 300 then reply_text[:297] plus three dots. -/
def truncate_reply (s : String) : String :=
  if s.length > 300 then ⟨s.data.take 297 ++ ['.', '.', '.']⟩ else s

/-! ## Thread context resolver (fetch_thread_context) -/

/-- A post as seen by the traversal: optional author handle, optional text. -/
structure PostView where
  author_handle : Option String
  text : Option String
deriving DecidableEq

/-- A thread view node: a chain of parents ending at the requested post.
The optional parent of the Python object is inlined into two constructors. -/
inductive ThreadNode where
  | top (post : Option PostView)
  | child (parent : ThreadNode) (post : Option PostView)
deriving DecidableEq

/-- get_post_text: the record text if present, else the empty string. -/
def get_post_text (p : PostView) : String :=
  p.text.getD ""

/-- One collected line of the traversal, with the fallback handle string
(the desktop variant uses one fallback, the server variant another). -/
def post_line (unk : String) (p : PostView) : String :=
  "@" ++ p.author_handle.getD unk ++ ": " ++ get_post_text p

/-- The lines a single node contributes: one if the node has a post, else none. -/
def node_line (unk : String) (p : Option PostView) : List String :=
  match p with
  | some pv => [post_line unk pv]
  | none => []

/-- The recursive traversal: parents first (root to leaf), then this node. -/
def traverse (unk : String) : ThreadNode → List String
  | .top p => node_line unk p
  | .child parent p => traverse unk parent ++ node_line unk p

/-- fetch_thread_context: none models a missing or invalid thread in the
response, or an exception during the fetch; otherwise the collected lines are
split into the newline-joined history (all but the last) and the most recent
post (the last line, empty if nothing was collected). -/
def fetch_thread_context (unk : String) (resp : Option ThreadNode) : String × String :=
  match resp with
  | none => ("", "")
  | some t =>
    let thread_posts := traverse unk t
    (String.intercalate "\n" thread_posts.dropLast, thread_posts.getLast?.getD "")

/-! ## Reply generator (get_openrouter_reply) -/

/-- Outcome of one HTTP completion attempt: a response with a status code and
an optional content string (some when the JSON has the choices-message-content
shape, none when the shape is unexpected or the body is not JSON), a request
timeout, or any other transport-level exception. -/
inductive HttpResult where
  | response (status : Nat) (content : Option String)
  | timeout
  | transport_err
deriving DecidableEq

/-- Whether requests raise_for_status raises for this status code. -/
def http_error_status (status : Nat) : Bool :=
  decide (400 ≤ status ∧ status < 600)

/-- The text payload an attempt yields when it is a well-formed non-error
response; none on any failure outcome. -/
def attempt_text (r : HttpResult) : Option String :=
  match r with
  | .response status content => if http_error_status status then none else content
  | .timeout => none
  | .transport_err => none

/-- The desktop variant generator: iterate the model list in order; an HTTP
error status, a malformed response shape, a timeout or a transport error move
to the next model; a well-formed response returns its stripped content at
once.  Returns the reply text (empty when all models failed) and the list of
models actually invoked, in order. -/
def get_openrouter_reply (env : String → HttpResult) : List String → String × List String
  | [] => ("", [])
  | m :: ms =>
    match env m with
    | .response status content =>
      if http_error_status status then
        let r := get_openrouter_reply env ms
        (r.1, m :: r.2)
      else
        match content with
        | some c => (py_strip c, [m])
        | none =>
          let r := get_openrouter_reply env ms
          (r.1, m :: r.2)
    | .timeout =>
      let r := get_openrouter_reply env ms
      (r.1, m :: r.2)
    | .transport_err =>
      let r := get_openrouter_reply env ms
      (r.1, m :: r.2)

/-- The server variant inner loop over the model list for one credential.
A 429 status with the primary credential and a secondary available breaks out
of the model loop (abandoning the remaining models); any other failure moves
to the next model under the same credential; a well-formed response returns
its stripped content.  Returns the reply (none when the loop ended without a
success) and the trace of (credential index, model) attempts. -/
def try_models_server (env : Nat → String → HttpResult) (key_index : Nat)
    (has_secondary : Bool) : List String → Option String × List (Nat × String)
  | [] => (none, [])
  | m :: ms =>
    match env key_index m with
    | .response status content =>
      if status == 429 then
        if key_index == 0 && has_secondary then
          (none, [(key_index, m)])
        else
          let r := try_models_server env key_index has_secondary ms
          (r.1, (key_index, m) :: r.2)
      else if http_error_status status then
        if status == 429 && key_index == 0 && has_secondary then
          (none, [(key_index, m)])
        else
          let r := try_models_server env key_index has_secondary ms
          (r.1, (key_index, m) :: r.2)
      else
        match content with
        | some c => (some (py_strip c), [(key_index, m)])
        | none =>
          let r := try_models_server env key_index has_secondary ms
          (r.1, (key_index, m) :: r.2)
    | .timeout =>
      let r := try_models_server env key_index has_secondary ms
      (r.1, (key_index, m) :: r.2)
    | .transport_err =>
      let r := try_models_server env key_index has_secondary ms
      (r.1, (key_index, m) :: r.2)

/-- The server variant generator: the full model list under the primary
credential, then (when configured) the full model list again under the
secondary credential; empty when everything failed. -/
def get_openrouter_reply_server (env : Nat → String → HttpResult)
    (has_secondary : Bool) (model_list : List String) : String × List (Nat × String) :=
  let r0 := try_models_server env 0 has_secondary model_list
  match r0.1 with
  | some t => (t, r0.2)
  | none =>
    if has_secondary then
      let r1 := try_models_server env 1 has_secondary model_list
      match r1.1 with
      | some t => (t, r0.2 ++ r1.2)
      | none => ("", r0.2 ++ r1.2)
    else
      ("", r0.2)

/-- The failure outcomes that make the server inner loop move to the next
model under the same credential: timeout, transport error, or a response that
is not a 429 and either has an error status or a malformed shape. -/
def moves_next_model (r : HttpResult) : Prop :=
  r = HttpResult.timeout ∨ r = HttpResult.transport_err ∨
    ∃ status content, r = HttpResult.response status content ∧ status ≠ 429 ∧
      (http_error_status status = true ∨ content = none)

/-! ## Notification data model -/

/-- The author of a notification; handle and did are duck-typed attributes. -/
structure Author where
  handle : Option String
  did : Option String
deriving DecidableEq

/-- The root strong reference found inside a reply record. -/
structure RootRef where
  cid : Option String
  uri : Option String
deriving DecidableEq

/-- The reply object of a record, carrying an optional root reference. -/
structure ReplyInfo where
  root : Option RootRef
deriving DecidableEq

/-- The record payload of a notification. -/
structure RecordData where
  reply : Option ReplyInfo
deriving DecidableEq

/-- A fetched notification.  uri, author, reason, cid and record are
duck-typed attributes modelled with Option; is_read is the server-reported
read flag; indexed_at orders the batch in the server variant. -/
structure Notif where
  uri : Option String
  author : Option Author
  reason : Option String
  cid : Option String
  record : Option RecordData
  is_read : Bool
  indexed_at : Nat
deriving DecidableEq

/-- The classification outcome of one notification. -/
inductive Decision where
  | skipRead
  | skipMalformed
  | skipIgnoredAuthor
  | skipDuplicate
  | skipSelf
  | skipWrongReason
  | eligible
deriving DecidableEq

/-- Python membership of a string in a set, modelled over a list. -/
def mem_str (u : String) : List String → Bool
  | [] => false
  | x :: xs => x == u || mem_str u xs

/-- The malformedness test of both variants: one of the five attributes is
missing, or the author lacks a handle or a did.  The author sub-checks are
short-circuited exactly as in the source. -/
def is_malformed (n : Notif) : Bool :=
  n.uri.isNone || n.author.isNone || n.reason.isNone || n.cid.isNone || n.record.isNone ||
    (match n.author with
     | some a => a.handle.isNone || a.did.isNone
     | none => true)

/-- The ignored-author test, guarded by attribute presence as in the source. -/
def author_ignored (ignored : List String) (n : Notif) : Bool :=
  match n.author with
  | some a =>
    match a.did with
    | some d => mem_str d ignored
    | none => false
  | none => false

/-- The self-notification test, guarded by attribute presence. -/
def self_authored (bot_handle : String) (n : Notif) : Bool :=
  match n.author with
  | some a =>
    match a.handle with
    | some h => h == bot_handle
    | none => false
  | none => false

/-- The reason filter: present and not mention or reply. -/
def wrong_reason (n : Notif) : Bool :=
  match n.reason with
  | some r => !(r == "mention" || r == "reply")
  | none => false

/-- The duplicate test: uri present and already in the de-dup set. -/
def uri_processed (processed : List String) (n : Notif) : Bool :=
  match n.uri with
  | some u => mem_str u processed
  | none => false

/-- The configuration both loops read at startup. -/
structure BotCfg where
  bot_handle : String
  ignored_dids : List String

/-- The desktop variant decision chain, in source order: malformed, ignored
author, duplicate, self, wrong reason, else eligible. -/
def classify_bot (cfg : BotCfg) (processed : List String) (n : Notif) : Decision :=
  if is_malformed n then .skipMalformed
  else if author_ignored cfg.ignored_dids n then .skipIgnoredAuthor
  else if uri_processed processed n then .skipDuplicate
  else if self_authored cfg.bot_handle n then .skipSelf
  else if wrong_reason n then .skipWrongReason
  else .eligible

/-- The server variant decision chain, in source order: the read flag (for a
uri not processed this run), duplicate, malformed, ignored author, self,
wrong reason, else eligible.  The uri is an argument because the source reads
it before the malformed check. -/
def classify_server (cfg : BotCfg) (processed : List String) (u : String) (n : Notif) :
    Decision :=
  if n.is_read && !(mem_str u processed) then .skipRead
  else if mem_str u processed then .skipDuplicate
  else if is_malformed n then .skipMalformed
  else if author_ignored cfg.ignored_dids n then .skipIgnoredAuthor
  else if self_authored cfg.bot_handle n then .skipSelf
  else if wrong_reason n then .skipWrongReason
  else .eligible

/-! ## Per-notification processing and the poll loop -/

/-- Observable external calls made while handling a notification. -/
inductive Event where
  | dupe_check (uri : String)
  | thread_fetch (uri : String)
  | model_call (uri : String)
  | send (parent : String) (root : String) (text : String)
deriving DecidableEq

/-- Oracles for the external collaborators: the thread fetch result keyed by
uri, the model reply keyed by history and most recent post (empty when all
backends failed), whether the reply post succeeds, and the result of the
server variant already-replied probe. -/
structure Env where
  thread : String → Option ThreadNode
  reply : String → String → String
  post_ok : String → Bool
  already_replied : String → Bool

/-- Result of the per-notification work: a normal return with the new state,
the classification decision and the events, or an exception escaping the
per-notification work with the state and events produced before the raise. -/
inductive StepResult (σ : Type) where
  | ok (st : σ) (d : Decision) (evs : List Event)
  | exn (st : σ) (evs : List Event)
deriving DecidableEq

/-- The state a step left behind, whether it returned or raised. -/
def step_state {σ : Type} : StepResult σ → σ
  | .ok st _ _ => st
  | .exn st _ => st

/-- The events a step emitted before returning or raising. -/
def step_events {σ : Type} : StepResult σ → List Event
  | .ok _ _ evs => evs
  | .exn _ evs => evs

/-- Desktop variant state: the durable de-dup file contents and the in-memory
processed set (loaded from the file at startup, kept in step with it). -/
structure BotState where
  file_lines : List String
  mem : List String
deriving DecidableEq

/-- append_processed_uri followed by the in-memory add. -/
def record_uri (st : BotState) (u : String) : BotState :=
  ⟨st.file_lines ++ [u], u :: st.mem⟩

/-- The root reference uri chosen for the reply: the root of the triggering
record when it is a reply with a discoverable root carrying cid and uri,
else the notification itself. -/
def reply_root_uri (n : Notif) (parent_uri : String) : String :=
  match n.record with
  | some rd =>
    match rd.reply with
    | some ri =>
      match ri.root with
      | some rr =>
        match rr.cid, rr.uri with
        | some _, some ru => ru
        | _, _ => parent_uri
      | none => parent_uri
    | none => parent_uri
  | none => parent_uri

/-- One notification of the desktop variant loop body: classify, record on
the skip branches (except duplicate, and except a malformed notification
without a uri), and for eligible notifications run fetch, generate, truncate
and post, recording only after a successful post; a post failure raises. -/
def process_notif_bot (cfg : BotCfg) (env : Env) (st : BotState) (n : Notif) :
    StepResult BotState :=
  match classify_bot cfg st.mem n with
  | .skipMalformed =>
    match n.uri with
    | some u => .ok (record_uri st u) .skipMalformed []
    | none => .ok st .skipMalformed []
  | .skipIgnoredAuthor =>
    match n.uri with
    | some u => .ok (record_uri st u) .skipIgnoredAuthor []
    | none => .ok st .skipIgnoredAuthor []
  | .skipDuplicate => .ok st .skipDuplicate []
  | .skipSelf =>
    match n.uri with
    | some u => .ok (record_uri st u) .skipSelf []
    | none => .ok st .skipSelf []
  | .skipWrongReason =>
    match n.uri with
    | some u => .ok (record_uri st u) .skipWrongReason []
    | none => .ok st .skipWrongReason []
  | .skipRead => .ok st .skipRead []
  | .eligible =>
    match n.uri with
    | none => .ok st .eligible []
    | some u =>
      let tc := fetch_thread_context "???" (env.thread u)
      if tc.2 == "" then .ok (record_uri st u) .eligible [.thread_fetch u]
      else
        let reply_text := env.reply tc.1 tc.2
        if reply_text == "" then
          .ok (record_uri st u) .eligible [.thread_fetch u, .model_call u]
        else
          let final_text := truncate_reply reply_text
          let root := reply_root_uri n u
          if env.post_ok u then
            .ok (record_uri st u) .eligible
              [.thread_fetch u, .model_call u, .send u root final_text]
          else
            .exn st [.thread_fetch u, .model_call u, .send u root final_text]

/-- The desktop loop body over a fetched batch: an exception from one
notification abandons the rest of the batch; the Bool records whether that
happened (it is caught at the cycle level). -/
def process_batch_bot (cfg : BotCfg) (env : Env) :
    BotState → List Notif → BotState × List Event × Bool
  | st, [] => (st, [], false)
  | st, n :: ns =>
    match process_notif_bot cfg env st n with
    | .ok st1 _ evs =>
      let r := process_batch_bot cfg env st1 ns
      (r.1, evs ++ r.2.1, r.2.2)
    | .exn st1 evs => (st1, evs, true)

/-- One poll cycle input: the fetched batch (none when the notification list
call raised or the response was malformed) and the oracles for this cycle. -/
structure CycleInput where
  fetched : Option (List Notif)
  env : Env

/-- A run interleaves poll cycles and process restarts. -/
inductive RunItem where
  | cycle (c : CycleInput)
  | restart

/-- One desktop poll cycle: the cycle-level try block turns a failed fetch or
an exception escaping the batch into a normal return. -/
def run_cycle_bot (cfg : BotCfg) (st : BotState) (c : CycleInput) : BotState × List Event :=
  match c.fetched with
  | none => (st, [])
  | some batch =>
    let r := process_batch_bot cfg c.env st batch
    (r.1, r.2.1)

/-- A restart reloads the in-memory set from the durable file. -/
def reload_on_restart (st : BotState) : BotState :=
  ⟨st.file_lines, st.file_lines⟩

/-- The desktop poll loop over a finite run. -/
def run_bot (cfg : BotCfg) : BotState → List RunItem → BotState × List Event
  | st, [] => (st, [])
  | st, .restart :: rest => run_bot cfg (reload_on_restart st) rest
  | st, .cycle c :: rest =>
    let r := run_cycle_bot cfg st c
    let r2 := run_bot cfg r.1 rest
    (r2.1, r.2 ++ r2.2)

/-- Server variant state: the in-run processed set only. -/
structure ServerState where
  processed_run : List String
deriving DecidableEq

/-- Add a uri to the in-run processed set. -/
def mark_processed (st : ServerState) (u : String) : ServerState :=
  ⟨u :: st.processed_run⟩

/-- One notification of the server variant loop body.  A missing uri raises
when the read-flag or duplicate check touches it.  Eligible notifications are
marked processed before the pipeline; then the already-replied probe, thread
fetch, generation, truncation and post run, and a post failure raises with
the uri already marked. -/
def process_notif_server (cfg : BotCfg) (env : Env) (st : ServerState) (n : Notif) :
    StepResult ServerState :=
  match n.uri with
  | none => .exn st []
  | some u =>
    match classify_server cfg st.processed_run u n with
    | .skipRead => .ok st .skipRead []
    | .skipDuplicate => .ok st .skipDuplicate []
    | .skipMalformed => .ok (mark_processed st u) .skipMalformed []
    | .skipIgnoredAuthor => .ok (mark_processed st u) .skipIgnoredAuthor []
    | .skipSelf => .ok (mark_processed st u) .skipSelf []
    | .skipWrongReason => .ok (mark_processed st u) .skipWrongReason []
    | .eligible =>
      let st1 := mark_processed st u
      if env.already_replied u then .ok st1 .eligible [.dupe_check u]
      else
        let tc := fetch_thread_context "unknown" (env.thread u)
        if tc.2 == "" then .ok st1 .eligible [.dupe_check u, .thread_fetch u]
        else
          let reply_text := env.reply tc.1 tc.2
          if reply_text == "" then
            .ok st1 .eligible [.dupe_check u, .thread_fetch u, .model_call u]
          else
            let final_text := truncate_reply reply_text
            let root := reply_root_uri n u
            if env.post_ok u then
              .ok st1 .eligible
                [.dupe_check u, .thread_fetch u, .model_call u, .send u root final_text]
            else
              .exn st1 [.dupe_check u, .thread_fetch u, .model_call u, .send u root final_text]

/-- The server loop body over a batch, with the same exception behaviour. -/
def process_batch_server (cfg : BotCfg) (env : Env) :
    ServerState → List Notif → ServerState × List Event × Bool
  | st, [] => (st, [], false)
  | st, n :: ns =>
    match process_notif_server cfg env st n with
    | .ok st1 _ evs =>
      let r := process_batch_server cfg env st1 ns
      (r.1, evs ++ r.2.1, r.2.2)
    | .exn st1 evs => (st1, evs, true)

/-- Stable insertion used to model the Python sorted call on indexed_at. -/
def insert_by_indexed (n : Notif) : List Notif → List Notif
  | [] => [n]
  | m :: ms => if m.indexed_at ≤ n.indexed_at then m :: insert_by_indexed n ms else n :: m :: ms

/-- The server variant sorts each batch ascending by indexed_at (stable). -/
def sort_notifications : List Notif → List Notif
  | [] => []
  | n :: ns => insert_by_indexed n (sort_notifications ns)

/-- One server poll cycle with its cycle-level try block. -/
def run_cycle_server (cfg : BotCfg) (st : ServerState) (c : CycleInput) :
    ServerState × List Event :=
  match c.fetched with
  | none => (st, [])
  | some batch =>
    let r := process_batch_server cfg c.env st (sort_notifications batch)
    (r.1, r.2.1)

/-- The server poll loop over a finite run (one process lifetime). -/
def run_server (cfg : BotCfg) : ServerState → List CycleInput → ServerState × List Event
  | st, [] => (st, [])
  | st, c :: rest =>
    let r := run_cycle_server cfg st c
    let r2 := run_server cfg r.1 rest
    (r2.1, r.2 ++ r2.2)

/-- How many reply posts in an event list are anchored at the given uri. -/
def sends_for (u : String) : List Event → Nat
  | [] => 0
  | .send p _ _ :: es => (if p == u then 1 else 0) + sends_for u es
  | .dupe_check _ :: es => sends_for u es
  | .thread_fetch _ :: es => sends_for u es
  | .model_call _ :: es => sends_for u es

/-! ## Concrete fixtures -/

def cfg0 : BotCfg := ⟨"zai.bsky.social", ["did:plc:block1"]⟩

def author_alice : Author := ⟨some "alice.bsky.social", some "did:plc:alice"⟩

def rd_plain : RecordData := ⟨none⟩

def n1 : Notif := ⟨some "n1", some author_alice, some "mention", some "c1", some rd_plain, false, 1⟩

def n_mal_ign : Notif :=
  ⟨some "n2", some ⟨none, some "did:plc:block1"⟩, some "mention", some "c2", some rd_plain, false, 2⟩

def n_mal_dup : Notif := ⟨some "n1", none, some "mention", some "c1", some rd_plain, false, 1⟩

def n_self_wrong : Notif :=
  ⟨some "n3", some ⟨some "zai.bsky.social", some "did:plc:zai"⟩, some "like", some "c3",
    some rd_plain, false, 3⟩

def n_read : Notif := ⟨some "n4", some author_alice, some "mention", some "c4", some rd_plain, true, 4⟩

def n_wrong : Notif := ⟨some "n5", some author_alice, some "like", some "c5", some rd_plain, false, 5⟩

def thread_single : ThreadNode := .top (some ⟨some "alice.bsky.social", some "hi bot"⟩)

def env_ok : Env := ⟨fun _ => some thread_single, fun _ _ => "hey lol", fun _ => true, fun _ => false⟩

def env_post_fail : Env :=
  ⟨fun _ => some thread_single, fun _ _ => "hey lol", fun _ => false, fun _ => false⟩

def env_no_thread : Env := ⟨fun _ => none, fun _ _ => "hey lol", fun _ => true, fun _ => false⟩

def st_empty : BotState := ⟨[], []⟩

def sst_empty : ServerState := ⟨[]⟩

def c1_st : BotState := ⟨["n1"], ["n1"]⟩

def c1_items : List RunItem := [.cycle ⟨some [n1], env_ok⟩, .restart, .cycle ⟨some [n1], env_ok⟩]

def c1_sst : ServerState := ⟨["n1"]⟩

def c1_cycles : List CycleInput := [⟨some [n1], env_ok⟩, ⟨some [n1], env_ok⟩]

def t3 : ThreadNode :=
  .child (.child (.top (some ⟨some "a", some "A"⟩)) (some ⟨some "b", some "B"⟩))
    (some ⟨some "c", some "C"⟩)

def t1 : ThreadNode := .top (some ⟨some "a", some "A"⟩)

def s300 : String := ⟨List.replicate 300 'a'⟩

def s301 : String := ⟨List.replicate 301 'a'⟩

def c6_env : String → HttpResult := fun m =>
  if m == "m2" then .response 200 (some "hi") else .response 200 (some " ")

def c6w_env : String → HttpResult := fun m =>
  if m == "m1" then .response 429 none
  else if m == "m2" then .timeout
  else .response 200 (some "hey")

def c7_env : Nat → String → HttpResult := fun k m =>
  if k == 0 && m == "a" then .response 429 none
  else if k == 0 then .timeout
  else if m == "a" then .response 429 none
  else .response 200 (some "sec")

/-! ## Helper lemmas -/

theorem mem_str_append (u : String) (a b : List String) :
    mem_str u (a ++ b) = (mem_str u a || mem_str u b) := by
  induction a with
  | nil => simp [mem_str]
  | cons x xs ih => simp [mem_str, ih, Bool.or_assoc]

theorem beq_false_of_mem_not_mem {I u : String} {l : List String}
    (hI : mem_str I l = true) (hu : mem_str u l = false) : (u == I) = false := by
  by_contra h
  have h2 : u = I := by
    have h3 : (u == I) = true := by
      cases h4 : (u == I) with
      | true => rfl
      | false => exact absurd h4 h
    exact eq_of_beq h3
  subst h2
  rw [hI] at hu
  simp at hu

theorem sends_for_append (u : String) (a b : List Event) :
    sends_for u (a ++ b) = sends_for u a + sends_for u b := by
  induction a with
  | nil => simp [sends_for]
  | cons e es ih => cases e <;> simp [sends_for, ih, Nat.add_assoc]

theorem classify_bot_spec (cfg : BotCfg) (p : List String) (n : Notif) :
    (classify_bot cfg p n = .skipMalformed ↔ is_malformed n = true) ∧
    (classify_bot cfg p n = .skipIgnoredAuthor ↔
      is_malformed n = false ∧ author_ignored cfg.ignored_dids n = true) ∧
    (classify_bot cfg p n = .skipDuplicate ↔
      is_malformed n = false ∧ author_ignored cfg.ignored_dids n = false ∧
        uri_processed p n = true) ∧
    (classify_bot cfg p n = .skipSelf ↔
      is_malformed n = false ∧ author_ignored cfg.ignored_dids n = false ∧
        uri_processed p n = false ∧ self_authored cfg.bot_handle n = true) ∧
    (classify_bot cfg p n = .skipWrongReason ↔
      is_malformed n = false ∧ author_ignored cfg.ignored_dids n = false ∧
        uri_processed p n = false ∧ self_authored cfg.bot_handle n = false ∧
        wrong_reason n = true) ∧
    (classify_bot cfg p n = .eligible ↔
      is_malformed n = false ∧ author_ignored cfg.ignored_dids n = false ∧
        uri_processed p n = false ∧ self_authored cfg.bot_handle n = false ∧
        wrong_reason n = false) := by
  unfold classify_bot
  split_ifs with h1 h2 h3 h4 h5 <;> simp_all

theorem classify_server_dup (cfg : BotCfg) (p : List String) (u : String) (n : Notif)
    (h : mem_str u p = true) : classify_server cfg p u n = .skipDuplicate := by
  unfold classify_server
  simp [h]

theorem classify_server_eligible_not_mem {cfg : BotCfg} {p : List String} {u : String}
    {n : Notif} (h : classify_server cfg p u n = .eligible) : mem_str u p = false := by
  by_contra h2
  have h3 : mem_str u p = true := by
    cases h4 : mem_str u p with
    | true => rfl
    | false => exact absurd h4 h2
  rw [classify_server_dup cfg p u n h3] at h
  exact absurd h (by simp)

theorem classify_bot_eligible_not_processed {cfg : BotCfg} {p : List String} {n : Notif}
    (h : classify_bot cfg p n = .eligible) : uri_processed p n = false :=
  ((classify_bot_spec cfg p n).2.2.2.2.2.1 h).2.2.1

theorem bot_step_preserves (cfg : BotCfg) (env : Env) (st : BotState) (n : Notif) (I : String)
    (hm : mem_str I st.mem = true) (hf : mem_str I st.file_lines = true) :
    mem_str I (step_state (process_notif_bot cfg env st n)).mem = true ∧
    mem_str I (step_state (process_notif_bot cfg env st n)).file_lines = true ∧
    sends_for I (step_events (process_notif_bot cfg env st n)) = 0 := by
  cases hd : classify_bot cfg st.mem n with
  | skipRead =>
    simp [process_notif_bot, hd, step_state, step_events, sends_for, hm, hf]
  | skipMalformed =>
    cases hu : n.uri <;>
      simp [process_notif_bot, hd, hu, step_state, step_events, sends_for, record_uri,
        mem_str, mem_str_append, hm, hf]
  | skipIgnoredAuthor =>
    cases hu : n.uri <;>
      simp [process_notif_bot, hd, hu, step_state, step_events, sends_for, record_uri,
        mem_str, mem_str_append, hm, hf]
  | skipDuplicate =>
    simp [process_notif_bot, hd, step_state, step_events, sends_for, hm, hf]
  | skipSelf =>
    cases hu : n.uri <;>
      simp [process_notif_bot, hd, hu, step_state, step_events, sends_for, record_uri,
        mem_str, mem_str_append, hm, hf]
  | skipWrongReason =>
    cases hu : n.uri <;>
      simp [process_notif_bot, hd, hu, step_state, step_events, sends_for, record_uri,
        mem_str, mem_str_append, hm, hf]
  | eligible =>
    cases hu : n.uri with
    | none => simp [process_notif_bot, hd, hu, step_state, step_events, sends_for, hm, hf]
    | some u =>
      have hup : uri_processed st.mem n = false := classify_bot_eligible_not_processed hd
      have hun : mem_str u st.mem = false := by
        unfold uri_processed at hup
        rw [hu] at hup
        exact hup
      have hne : (u == I) = false := beq_false_of_mem_not_mem hm hun
      by_cases h1 : (fetch_thread_context "???" (env.thread u)).2 == ""
      · simp [process_notif_bot, hd, hu, h1, step_state, step_events, sends_for, record_uri,
          mem_str, mem_str_append, hm, hf]
      · by_cases h2 : env.reply (fetch_thread_context "???" (env.thread u)).1
            (fetch_thread_context "???" (env.thread u)).2 == ""
        · simp [process_notif_bot, hd, hu, h1, h2, step_state, step_events, sends_for,
            record_uri, mem_str, mem_str_append, hm, hf]
        · by_cases h3 : env.post_ok u
          · simp [process_notif_bot, hd, hu, h1, h2, h3, step_state, step_events, sends_for,
              record_uri, mem_str, mem_str_append, hm, hf, hne]
          · simp [process_notif_bot, hd, hu, h1, h2, h3, step_state, step_events, sends_for,
              record_uri, mem_str, mem_str_append, hm, hf, hne]

theorem bot_batch_preserves (cfg : BotCfg) (env : Env) (I : String) :
    ∀ (ns : List Notif) (st : BotState),
    mem_str I st.mem = true → mem_str I st.file_lines = true →
    mem_str I (process_batch_bot cfg env st ns).1.mem = true ∧
    mem_str I (process_batch_bot cfg env st ns).1.file_lines = true ∧
    sends_for I (process_batch_bot cfg env st ns).2.1 = 0 := by
  intro ns
  induction ns with
  | nil => intro st hm hf; simp [process_batch_bot, sends_for, hm, hf]
  | cons n ns ih =>
    intro st hm hf
    have hstep := bot_step_preserves cfg env st n I hm hf
    cases hr : process_notif_bot cfg env st n with
    | ok st1 d evs =>
      rw [hr] at hstep
      simp only [step_state, step_events] at hstep
      obtain ⟨h1, h2, h3⟩ := hstep
      have hrec := ih st1 h1 h2
      simp [process_batch_bot, hr, sends_for_append, h3, hrec.1, hrec.2.1, hrec.2.2]
    | exn st1 evs =>
      rw [hr] at hstep
      simp only [step_state, step_events] at hstep
      simp [process_batch_bot, hr, hstep.1, hstep.2.1, hstep.2.2]

theorem bot_run_preserves (cfg : BotCfg) (I : String) :
    ∀ (items : List RunItem) (st : BotState),
    mem_str I st.mem = true → mem_str I st.file_lines = true →
    sends_for I (run_bot cfg st items).2 = 0 := by
  intro items
  induction items with
  | nil => intro st hm hf; simp [run_bot, sends_for]
  | cons it rest ih =>
    intro st hm hf
    cases it with
    | restart =>
      simp only [run_bot]
      exact ih (reload_on_restart st) hf hf
    | cycle c =>
      cases hc : c.fetched with
      | none =>
        simp only [run_bot, run_cycle_bot, hc]
        simpa [sends_for] using ih st hm hf
      | some batch =>
        have hb := bot_batch_preserves cfg c.env I batch st hm hf
        have hrec := ih (process_batch_bot cfg c.env st batch).1 hb.1 hb.2.1
        simp [run_bot, run_cycle_bot, hc, sends_for_append, hb.2.2, hrec]

theorem server_step_preserves (cfg : BotCfg) (env : Env) (st : ServerState) (n : Notif)
    (I : String) (hm : mem_str I st.processed_run = true) :
    mem_str I (step_state (process_notif_server cfg env st n)).processed_run = true ∧
    sends_for I (step_events (process_notif_server cfg env st n)) = 0 := by
  cases hu : n.uri with
  | none => simp [process_notif_server, hu, step_state, step_events, sends_for, hm]
  | some u =>
    cases hd : classify_server cfg st.processed_run u n with
    | skipRead =>
      simp [process_notif_server, hu, hd, step_state, step_events, sends_for, hm]
    | skipDuplicate =>
      simp [process_notif_server, hu, hd, step_state, step_events, sends_for, hm]
    | skipMalformed =>
      simp [process_notif_server, hu, hd, step_state, step_events, sends_for,
        mark_processed, mem_str, hm]
    | skipIgnoredAuthor =>
      simp [process_notif_server, hu, hd, step_state, step_events, sends_for,
        mark_processed, mem_str, hm]
    | skipSelf =>
      simp [process_notif_server, hu, hd, step_state, step_events, sends_for,
        mark_processed, mem_str, hm]
    | skipWrongReason =>
      simp [process_notif_server, hu, hd, step_state, step_events, sends_for,
        mark_processed, mem_str, hm]
    | eligible =>
      have hun : mem_str u st.processed_run = false := classify_server_eligible_not_mem hd
      have hne : (u == I) = false := beq_false_of_mem_not_mem hm hun
      by_cases h0 : env.already_replied u
      · simp [process_notif_server, hu, hd, h0, step_state, step_events, sends_for,
          mark_processed, mem_str, hm]
      · by_cases h1 : (fetch_thread_context "unknown" (env.thread u)).2 == ""
        · simp [process_notif_server, hu, hd, h0, h1, step_state, step_events, sends_for,
            mark_processed, mem_str, hm]
        · by_cases h2 : env.reply (fetch_thread_context "unknown" (env.thread u)).1
              (fetch_thread_context "unknown" (env.thread u)).2 == ""
          · simp [process_notif_server, hu, hd, h0, h1, h2, step_state, step_events,
              sends_for, mark_processed, mem_str, hm]
          · by_cases h3 : env.post_ok u
            · simp [process_notif_server, hu, hd, h0, h1, h2, h3, step_state, step_events,
                sends_for, mark_processed, mem_str, hm, hne]
            · simp [process_notif_server, hu, hd, h0, h1, h2, h3, step_state, step_events,
                sends_for, mark_processed, mem_str, hm, hne]

theorem server_batch_preserves (cfg : BotCfg) (env : Env) (I : String) :
    ∀ (ns : List Notif) (st : ServerState),
    mem_str I st.processed_run = true →
    mem_str I (process_batch_server cfg env st ns).1.processed_run = true ∧
    sends_for I (process_batch_server cfg env st ns).2.1 = 0 := by
  intro ns
  induction ns with
  | nil => intro st hm; simp [process_batch_server, sends_for, hm]
  | cons n ns ih =>
    intro st hm
    have hstep := server_step_preserves cfg env st n I hm
    cases hr : process_notif_server cfg env st n with
    | ok st1 d evs =>
      rw [hr] at hstep
      simp only [step_state, step_events] at hstep
      have hrec := ih st1 hstep.1
      simp [process_batch_server, hr, sends_for_append, hstep.2, hrec.1, hrec.2]
    | exn st1 evs =>
      rw [hr] at hstep
      simp only [step_state, step_events] at hstep
      simp [process_batch_server, hr, hstep.1, hstep.2]

theorem server_run_preserves (cfg : BotCfg) (I : String) :
    ∀ (cycles : List CycleInput) (st : ServerState),
    mem_str I st.processed_run = true →
    sends_for I (run_server cfg st cycles).2 = 0 := by
  intro cycles
  induction cycles with
  | nil => intro st hm; simp [run_server, sends_for]
  | cons c rest ih =>
    intro st hm
    cases hc : c.fetched with
    | none =>
      simp only [run_server, run_cycle_server, hc]
      simpa [sends_for] using ih st hm
    | some batch =>
      have hb := server_batch_preserves cfg c.env I (sort_notifications batch) st hm
      have hrec := ih (process_batch_server cfg c.env st (sort_notifications batch)).1 hb.1
      simp [run_server, run_cycle_server, hc, sends_for_append, hb.2, hrec]

theorem head_dropWhile_not (p : Char → Bool) :
    ∀ (l : List Char) (c : Char), (l.dropWhile p).head? = some c → p c = false := by
  intro l
  induction l with
  | nil => intro c h; simp [List.dropWhile] at h
  | cons a as ih =>
    intro c h
    cases hp : p a with
    | true =>
      simp only [List.dropWhile, hp] at h
      exact ih c h
    | false =>
      simp only [List.dropWhile, hp] at h
      simp at h
      rw [← h]
      exact hp

theorem getLast_dropWhile (p : Char → Bool) :
    ∀ (l : List Char), l.dropWhile p ≠ [] → (l.dropWhile p).getLast? = l.getLast? := by
  intro l
  induction l with
  | nil => intro h; simp [List.dropWhile] at h
  | cons a as ih =>
    intro h
    cases hp : p a with
    | true =>
      simp only [List.dropWhile, hp] at h ⊢
      have has : as ≠ [] := by
        intro h0
        rw [h0] at h
        simp [List.dropWhile] at h
      rw [ih h]
      cases as with
      | nil => exact absurd rfl has
      | cons b bs => simp [List.getLast?_cons_cons]
    | false =>
      simp only [List.dropWhile, hp]

theorem string_length_data (s : String) : s.length = s.data.length := by
  cases s
  rfl

theorem process_batch_bot_exn_at (cfg : BotCfg) (env : Env) :
    ∀ (pre : List Notif) (st st1 st2 : BotState) (n : Notif) (post : List Notif)
      (evs1 evs2 : List Event),
    process_batch_bot cfg env st pre = (st1, evs1, false) →
    process_notif_bot cfg env st1 n = .exn st2 evs2 →
    process_batch_bot cfg env st (pre ++ n :: post) = (st2, evs1 ++ evs2, true) := by
  intro pre
  induction pre with
  | nil =>
    intro st st1 st2 n post evs1 evs2 h1 h2
    simp only [process_batch_bot, Prod.mk.injEq] at h1
    obtain ⟨hA, hB, -⟩ := h1
    subst hA
    rw [← hB]
    simp [process_batch_bot, h2]
  | cons m ms ih =>
    intro st st1 st2 n post evs1 evs2 h1 h2
    cases hr : process_notif_bot cfg env st m with
    | ok stx d evsx =>
      rw [List.cons_append]
      simp only [process_batch_bot, hr, Prod.mk.injEq] at h1 ⊢
      obtain ⟨hB1, hB2, hB3⟩ := h1
      have hms : process_batch_bot cfg env stx ms =
          (st1, (process_batch_bot cfg env stx ms).2.1, false) := by
        rw [← hB1, ← hB3]
      have hrec := ih stx st1 st2 n post (process_batch_bot cfg env stx ms).2.1 evs2 hms h2
      rw [hrec]
      simp [← hB2, List.append_assoc]
    | exn stx evsx =>
      simp only [process_batch_bot, hr, Prod.mk.injEq] at h1
      exact absurd h1.2.2 (by simp)

theorem process_batch_server_exn_at (cfg : BotCfg) (env : Env) :
    ∀ (pre : List Notif) (st st1 st2 : ServerState) (n : Notif) (post : List Notif)
      (evs1 evs2 : List Event),
    process_batch_server cfg env st pre = (st1, evs1, false) →
    process_notif_server cfg env st1 n = .exn st2 evs2 →
    process_batch_server cfg env st (pre ++ n :: post) = (st2, evs1 ++ evs2, true) := by
  intro pre
  induction pre with
  | nil =>
    intro st st1 st2 n post evs1 evs2 h1 h2
    simp only [process_batch_server, Prod.mk.injEq] at h1
    obtain ⟨hA, hB, -⟩ := h1
    subst hA
    rw [← hB]
    simp [process_batch_server, h2]
  | cons m ms ih =>
    intro st st1 st2 n post evs1 evs2 h1 h2
    cases hr : process_notif_server cfg env st m with
    | ok stx d evsx =>
      rw [List.cons_append]
      simp only [process_batch_server, hr, Prod.mk.injEq] at h1 ⊢
      obtain ⟨hB1, hB2, hB3⟩ := h1
      have hms : process_batch_server cfg env stx ms =
          (st1, (process_batch_server cfg env stx ms).2.1, false) := by
        rw [← hB1, ← hB3]
      have hrec := ih stx st1 st2 n post (process_batch_server cfg env stx ms).2.1 evs2 hms h2
      rw [hrec]
      simp [← hB2, List.append_assoc]
    | exn stx evsx =>
      simp only [process_batch_server, hr, Prod.mk.injEq] at h1
      exact absurd h1.2.2 (by simp)

theorem get_openrouter_exhausted (env : String → HttpResult) :
    ∀ (models : List String), (∀ m, m ∈ models → attempt_text (env m) = none) →
    get_openrouter_reply env models = ("", models) := by
  intro models
  induction models with
  | nil => intro h; rfl
  | cons m ms ih =>
    intro h
    have hm := h m (by simp)
    have hrec := ih (fun x hx => h x (by simp [hx]))
    cases he : env m with
    | response status content =>
      rw [he] at hm
      simp only [attempt_text] at hm
      by_cases hs : http_error_status status = true
      · simp [get_openrouter_reply, he, hs, hrec]
      · simp [hs] at hm
        simp [get_openrouter_reply, he, hs, hm, hrec]
    | timeout => simp [get_openrouter_reply, he, hrec]
    | transport_err => simp [get_openrouter_reply, he, hrec]

theorem get_openrouter_first_wf (env : String → HttpResult) :
    ∀ (pre : List String) (m : String) (post : List String) (c : String),
    (∀ x, x ∈ pre → attempt_text (env x) = none) →
    attempt_text (env m) = some c →
    get_openrouter_reply env (pre ++ m :: post) = (py_strip c, pre ++ [m]) := by
  intro pre
  induction pre with
  | nil =>
    intro m post c hpre hm
    cases he : env m with
    | response status content =>
      rw [he] at hm
      simp only [attempt_text] at hm
      by_cases hs : http_error_status status = true
      · rw [if_pos hs] at hm
        exact absurd hm (by simp)
      · rw [if_neg hs] at hm
        simp [get_openrouter_reply, he, hs, hm]
    | timeout =>
      rw [he] at hm
      exact absurd hm (by simp [attempt_text])
    | transport_err =>
      rw [he] at hm
      exact absurd hm (by simp [attempt_text])
  | cons x xs ih =>
    intro m post c hpre hm
    have hx := hpre x (by simp)
    have hrec := ih m post c (fun y hy => hpre y (by simp [hy])) hm
    cases he : env x with
    | response status content =>
      rw [he] at hx
      simp only [attempt_text] at hx
      by_cases hs : http_error_status status = true
      · simp [get_openrouter_reply, he, hs, hrec]
      · simp [hs] at hx
        simp [get_openrouter_reply, he, hs, hx, hrec]
    | timeout => simp [get_openrouter_reply, he, hrec]
    | transport_err => simp [get_openrouter_reply, he, hrec]

/-! ## Claim theorems, witnesses and counterexamples -/

/-- C1: once an identifier is recorded in the de-dup state, no reply-send call
anchored at it is ever issued again, across any later poll cycles and restarts
that reload the durable store (desktop variant), and across any later cycles
of the run (server variant); in particular at most one send is ever issued for
a recorded identifier. -/
theorem C1_at_most_once (cfg : BotCfg) (I : String) :
    (∀ (st : BotState) (items : List RunItem),
      mem_str I st.mem = true → mem_str I st.file_lines = true →
      sends_for I (run_bot cfg st items).2 = 0) ∧
    (∀ (st : ServerState) (cycles : List CycleInput),
      mem_str I st.processed_run = true →
      sends_for I (run_server cfg st cycles).2 = 0) :=
  ⟨fun st items hm hf => bot_run_preserves cfg I items st hm hf,
   fun st cycles hm => server_run_preserves cfg I cycles st hm⟩

theorem C1_witness :
    mem_str "n1" c1_st.mem = true ∧ mem_str "n1" c1_st.file_lines = true ∧
    sends_for "n1" (run_bot cfg0 c1_st c1_items).2 = 0 ∧
    mem_str "n1" c1_sst.processed_run = true ∧
    sends_for "n1" (run_server cfg0 c1_sst c1_cycles).2 = 0 :=
  ⟨by decide, by decide,
   (C1_at_most_once cfg0 "n1").1 c1_st c1_items (by decide) (by decide),
   by decide,
   (C1_at_most_once cfg0 "n1").2 c1_sst c1_cycles (by decide)⟩

/-- C3: the desktop classifier applies the six rules first-match-wins in the
order malformed, ignored-author, duplicate, self, wrong-reason, eligible
(stated as a full characterisation of each decision), and every skip branch
except skip-duplicate performs an immediate de-dup write for the identifier
while skip-duplicate leaves the state untouched. -/
theorem C3_precedence_and_writes (cfg : BotCfg) (processed : List String) (n : Notif) :
    (classify_bot cfg processed n = .skipMalformed ↔ is_malformed n = true) ∧
    (classify_bot cfg processed n = .skipIgnoredAuthor ↔
      is_malformed n = false ∧ author_ignored cfg.ignored_dids n = true) ∧
    (classify_bot cfg processed n = .skipDuplicate ↔
      is_malformed n = false ∧ author_ignored cfg.ignored_dids n = false ∧
        uri_processed processed n = true) ∧
    (classify_bot cfg processed n = .skipSelf ↔
      is_malformed n = false ∧ author_ignored cfg.ignored_dids n = false ∧
        uri_processed processed n = false ∧ self_authored cfg.bot_handle n = true) ∧
    (classify_bot cfg processed n = .skipWrongReason ↔
      is_malformed n = false ∧ author_ignored cfg.ignored_dids n = false ∧
        uri_processed processed n = false ∧ self_authored cfg.bot_handle n = false ∧
        wrong_reason n = true) ∧
    (classify_bot cfg processed n = .eligible ↔
      is_malformed n = false ∧ author_ignored cfg.ignored_dids n = false ∧
        uri_processed processed n = false ∧ self_authored cfg.bot_handle n = false ∧
        wrong_reason n = false) ∧
    (∀ (env : Env) (st : BotState) (u : String) (d : Decision),
      st.mem = processed → n.uri = some u → classify_bot cfg processed n = d →
      ((d = .skipMalformed ∨ d = .skipIgnoredAuthor ∨ d = .skipSelf ∨ d = .skipWrongReason) →
        process_notif_bot cfg env st n = .ok (record_uri st u) d []) ∧
      (d = .skipDuplicate → process_notif_bot cfg env st n = .ok st .skipDuplicate [])) := by
  have hs := classify_bot_spec cfg processed n
  refine ⟨hs.1, hs.2.1, hs.2.2.1, hs.2.2.2.1, hs.2.2.2.2.1, hs.2.2.2.2.2,
    fun env st u d hst hu hd => ?_⟩
  have hd2 : classify_bot cfg st.mem n = d := by rw [hst]; exact hd
  constructor
  · rintro (rfl | rfl | rfl | rfl) <;> simp [process_notif_bot, hd2, hu]
  · rintro rfl
    simp [process_notif_bot, hd2]

theorem C3_witness :
    is_malformed n_mal_ign = true ∧ author_ignored cfg0.ignored_dids n_mal_ign = true ∧
    classify_bot cfg0 [] n_mal_ign = Decision.skipMalformed ∧
    self_authored cfg0.bot_handle n_self_wrong = true ∧ wrong_reason n_self_wrong = true ∧
    classify_bot cfg0 [] n_self_wrong = Decision.skipSelf ∧
    process_notif_bot cfg0 env_ok st_empty n_self_wrong =
      .ok (record_uri st_empty "n3") .skipSelf [] := by
  have h := C3_precedence_and_writes cfg0 [] n_self_wrong
  have h2 := C3_precedence_and_writes cfg0 [] n_mal_ign
  have hcl : classify_bot cfg0 [] n_self_wrong = .skipSelf := h.2.2.2.1.mpr (by decide)
  refine ⟨by decide, by decide, h2.1.mpr (by decide), by decide, by decide, hcl, ?_⟩
  exact (h.2.2.2.2.2.2 env_ok st_empty "n3" .skipSelf rfl rfl hcl).1 (by simp)

/-- C4 counterexample: a malformed notification whose identifier is already in
the de-dup set is classified skip-malformed, not skip-duplicate, so the
decision for an already-recorded identifier does depend on other attributes in
the desktop variant. -/
theorem C4_counterexample :
    uri_processed ["n1"] n_mal_dup = true ∧
    classify_bot cfg0 ["n1"] n_mal_dup = Decision.skipMalformed ∧
    classify_bot cfg0 ["n1"] n_mal_dup ≠ Decision.skipDuplicate := by decide

/-- C4 (amended): classification is deterministic, depending on the de-dup
state only through membership; in the server variant an already-processed
identifier is always classified skip-duplicate regardless of the other
attributes; in the desktop variant this holds once the notification is
well-formed and its author is not ignored, because those two rules precede
the duplicate rule. -/
theorem C4_determinism_amended (cfg : BotCfg) (n : Notif) (p q : List String) (u : String) :
    ((∀ x, mem_str x p = mem_str x q) → classify_bot cfg p n = classify_bot cfg q n) ∧
    ((∀ x, mem_str x p = mem_str x q) → classify_server cfg p u n = classify_server cfg q u n) ∧
    (mem_str u p = true → classify_server cfg p u n = Decision.skipDuplicate) ∧
    (is_malformed n = false → author_ignored cfg.ignored_dids n = false →
      uri_processed p n = true → classify_bot cfg p n = Decision.skipDuplicate) := by
  refine ⟨?_, ?_, fun h => classify_server_dup cfg p u n h, ?_⟩
  · intro h
    have hup : uri_processed p n = uri_processed q n := by
      unfold uri_processed
      cases n.uri with
      | none => rfl
      | some x => exact h x
    unfold classify_bot
    rw [hup]
  · intro h
    unfold classify_server
    rw [h u]
  · intro h1 h2 h3
    unfold classify_bot
    simp [h1, h2, h3]

theorem C4_witness :
    classify_bot cfg0 ["n1", "n1"] n1 = classify_bot cfg0 ["n1"] n1 ∧
    classify_server cfg0 ["n1"] "n1" n_mal_dup = Decision.skipDuplicate ∧
    classify_bot cfg0 ["n1"] n1 = Decision.skipDuplicate :=
  ⟨(C4_determinism_amended cfg0 n1 ["n1", "n1"] ["n1"] "n1").1 (fun x => by simp [mem_str]),
   (C4_determinism_amended cfg0 n_mal_dup ["n1"] ["n1"] "n1").2.2.1 (by decide),
   (C4_determinism_amended cfg0 n1 ["n1"] ["n1"] "n1").2.2.2 (by decide) (by decide) (by decide)⟩

/-- C10: in the server variant, a notification whose read flag is set and
whose identifier has not been processed this run is skipped outright: no
events (no thread, dupe-check or model call, no send) and no de-dup write. -/
theorem C10_read_flag_skip (cfg : BotCfg) (env : Env) (st : ServerState) (n : Notif)
    (u : String) (hu : n.uri = some u) (hr : n.is_read = true)
    (hm : mem_str u st.processed_run = false) :
    process_notif_server cfg env st n = .ok st .skipRead [] := by
  have hcl : classify_server cfg st.processed_run u n = .skipRead := by
    unfold classify_server
    simp [hr, hm]
  simp [process_notif_server, hu, hcl]

theorem C10_witness :
    n_read.uri = some "n4" ∧ n_read.is_read = true ∧
    mem_str "n4" sst_empty.processed_run = false ∧
    process_notif_server cfg0 env_ok sst_empty n_read = .ok sst_empty .skipRead [] :=
  ⟨rfl, rfl, by decide,
   C10_read_flag_skip cfg0 env_ok sst_empty n_read "n4" rfl rfl (by decide)⟩

/-- C9: the resolver splits the collected root-to-leaf lines so that history
is everything but the last line and the most recent post is exactly the last
line; a missing or invalid thread response and an empty traversal both yield
the empty pair without raising; and an eligible notification whose resolver
result has an empty most-recent post is recorded and skipped with no model
call and no send. -/
theorem C9_thread_split (unk : String) (t : ThreadNode) :
    (∀ (ps : List String) (p : String), traverse unk t = ps ++ [p] →
      fetch_thread_context unk (some t) = (String.intercalate "\n" ps, p)) ∧
    fetch_thread_context unk none = ("", "") ∧
    (traverse unk t = [] → fetch_thread_context unk (some t) = ("", "")) ∧
    (∀ (cfg : BotCfg) (env : Env) (st : BotState) (n : Notif) (u : String),
      n.uri = some u → classify_bot cfg st.mem n = .eligible →
      (fetch_thread_context "???" (env.thread u)).2 = "" →
      process_notif_bot cfg env st n = .ok (record_uri st u) .eligible [.thread_fetch u]) := by
  refine ⟨?_, rfl, ?_, ?_⟩
  · intro ps p h
    simp only [fetch_thread_context]
    rw [h]
    simp [List.dropLast_concat, List.getLast?_concat]
  · intro h
    simp only [fetch_thread_context]
    rw [h]
    simp
    rfl
  · intro cfg env st n u hu hcl hmrp
    have hb : ((fetch_thread_context "???" (env.thread u)).2 == "") = true := by
      rw [hmrp]
      rfl
    simp [process_notif_bot, hcl, hu, hb]

theorem C9_witness :
    traverse "???" t3 = ["@a: A", "@b: B"] ++ ["@c: C"] ∧
    fetch_thread_context "???" (some t3) = (String.intercalate "\n" ["@a: A", "@b: B"], "@c: C") ∧
    String.intercalate "\n" ["@a: A", "@b: B"] = "@a: A\n@b: B" ∧
    traverse "???" t1 = [] ++ ["@a: A"] ∧
    fetch_thread_context "???" (some t1) = (String.intercalate "\n" [], "@a: A") ∧
    classify_bot cfg0 st_empty.mem n1 = Decision.eligible ∧
    (fetch_thread_context "???" (env_no_thread.thread "n1")).2 = "" ∧
    process_notif_bot cfg0 env_no_thread st_empty n1 =
      .ok (record_uri st_empty "n1") .eligible [.thread_fetch "n1"] := by
  refine ⟨by decide, (C9_thread_split "???" t3).1 ["@a: A", "@b: B"] "@c: C" (by decide),
    by decide, by decide, (C9_thread_split "???" t1).1 [] "@a: A" (by decide),
    by decide, by decide,
    (C9_thread_split "???" t1).2.2.2 cfg0 env_no_thread st_empty n1 "n1" rfl (by decide)
      (by decide)⟩

/-- C8: reply post-processing trims surrounding whitespace (the stripped text
has no leading or trailing whitespace) and enforces the 300-unit limit exactly
at the boundary: text of length at most 300 is unchanged, and longer text
becomes its first 297 units followed by a three-unit ellipsis marker, total
exactly 300. -/
theorem C8_truncation_boundary (s : String) :
    (s.length ≤ 300 → truncate_reply s = s) ∧
    (s.length > 300 →
      (truncate_reply s).data = s.data.take 297 ++ ['.', '.', '.'] ∧
      (truncate_reply s).length = 300 ∧
      (truncate_reply s).data.take 297 = s.data.take 297) ∧
    (∀ c, (py_strip s).data.head? = some c → py_is_space c = false) ∧
    (∀ c, (py_strip s).data.getLast? = some c → py_is_space c = false) := by
  refine ⟨?_, ?_, ?_, ?_⟩
  · intro h
    unfold truncate_reply
    rw [if_neg (by omega)]
  · intro h
    have hlen : s.data.length > 300 := by rw [← string_length_data]; exact h
    have hd : (truncate_reply s).data = s.data.take 297 ++ ['.', '.', '.'] := by
      unfold truncate_reply
      rw [if_pos h]
    refine ⟨hd, ?_, ?_⟩
    · rw [string_length_data, hd]
      simp [List.length_take]
      omega
    · rw [hd]
      rw [List.take_append_of_le_length (by simp [List.length_take]; omega)]
      simp [List.take_take]
  · intro c hc
    have hps : (py_strip s).data = py_strip_chars s.data := rfl
    rw [hps] at hc
    unfold py_strip_chars at hc
    rw [List.head?_reverse] at hc
    have hne : List.dropWhile py_is_space ((s.data.dropWhile py_is_space).reverse) ≠ [] := by
      intro h0
      rw [h0] at hc
      simp at hc
    rw [getLast_dropWhile _ _ hne] at hc
    rw [List.getLast?_reverse] at hc
    exact head_dropWhile_not _ _ _ hc
  · intro c hc
    have hps : (py_strip s).data = py_strip_chars s.data := rfl
    rw [hps] at hc
    unfold py_strip_chars at hc
    rw [List.getLast?_reverse] at hc
    exact head_dropWhile_not _ _ _ hc

set_option maxRecDepth 4000 in
theorem C8_witness :
    s300.length ≤ 300 ∧ truncate_reply s300 = s300 ∧
    s301.length > 300 ∧ (truncate_reply s301).length = 300 :=
  ⟨by decide, (C8_truncation_boundary s300).1 (by decide), by decide,
   ((C8_truncation_boundary s301).2.1 (by decide)).2.1⟩

/-- C2 counterexample: an eligible notification whose reply post fails is not
marked processed in the desktop variant: the exception raised by the post
escapes before the de-dup write, leaving the state unchanged, so the claim
that a post failure still leaves the identifier marked processed is false. -/
theorem C2_counterexample :
    classify_bot cfg0 st_empty.mem n1 = Decision.eligible ∧
    process_notif_bot cfg0 env_post_fail st_empty n1 =
      .exn st_empty [.thread_fetch "n1", .model_call "n1", .send "n1" "n1" "hey lol"] ∧
    mem_str "n1" (step_state (process_notif_bot cfg0 env_post_fail st_empty n1)).mem = false ∧
    mem_str "n1" (step_state (process_notif_bot cfg0 env_post_fail st_empty n1)).file_lines
      = false := by
  decide

/-- C2 (amended): in the desktop variant the de-dup write for an eligible
notification is deferred until after the pipeline, and a failure at the
resolve step (no thread) or the generate step (no reply) still records the
identifier, as does a successful post, but a post failure raises before the
write and leaves the identifier unrecorded; in the server variant the
identifier is recorded before the pipeline, so it is marked processed
whatever happens downstream. -/
theorem C2_deferred_write_amended (cfg : BotCfg) (env : Env) (n : Notif) (u : String)
    (hu : n.uri = some u) :
    (∀ st : BotState, classify_bot cfg st.mem n = .eligible →
      ∀ th mrp, fetch_thread_context "???" (env.thread u) = (th, mrp) →
      ((mrp = "" →
         process_notif_bot cfg env st n = .ok (record_uri st u) .eligible [.thread_fetch u]) ∧
       (mrp ≠ "" → env.reply th mrp = "" →
         process_notif_bot cfg env st n =
           .ok (record_uri st u) .eligible [.thread_fetch u, .model_call u]) ∧
       (mrp ≠ "" → env.reply th mrp ≠ "" → env.post_ok u = true →
         process_notif_bot cfg env st n =
           .ok (record_uri st u) .eligible
             [.thread_fetch u, .model_call u,
              .send u (reply_root_uri n u) (truncate_reply (env.reply th mrp))]) ∧
       (mrp ≠ "" → env.reply th mrp ≠ "" → env.post_ok u = false →
         process_notif_bot cfg env st n =
           .exn st
             [.thread_fetch u, .model_call u,
              .send u (reply_root_uri n u) (truncate_reply (env.reply th mrp))]))) ∧
    (∀ st : ServerState, classify_server cfg st.processed_run u n = .eligible →
      mem_str u (step_state (process_notif_server cfg env st n)).processed_run = true) := by
  constructor
  · intro st hcl th mrp hf
    refine ⟨?_, ?_, ?_, ?_⟩
    · intro h1
      have hb : (mrp == "") = true := by simp [h1]
      simp [process_notif_bot, hcl, hu, hf, hb]
    · intro h1 h2
      have hb : (mrp == "") = false := by simp [h1]
      have hb2 : (env.reply th mrp == "") = true := by simp [h2]
      simp [process_notif_bot, hcl, hu, hf, hb, hb2]
    · intro h1 h2 h3
      have hb : (mrp == "") = false := by simp [h1]
      have hb2 : (env.reply th mrp == "") = false := by simp [h2]
      simp [process_notif_bot, hcl, hu, hf, hb, hb2, h3]
    · intro h1 h2 h3
      have hb : (mrp == "") = false := by simp [h1]
      have hb2 : (env.reply th mrp == "") = false := by simp [h2]
      simp [process_notif_bot, hcl, hu, hf, hb, hb2, h3]
  · intro st hcl
    by_cases h0 : env.already_replied u
    · simp [process_notif_server, hu, hcl, h0, step_state, mark_processed, mem_str]
    · by_cases h1 : (fetch_thread_context "unknown" (env.thread u)).2 == ""
      · simp [process_notif_server, hu, hcl, h0, h1, step_state, mark_processed, mem_str]
      · by_cases h2 : env.reply (fetch_thread_context "unknown" (env.thread u)).1
            (fetch_thread_context "unknown" (env.thread u)).2 == ""
        · simp [process_notif_server, hu, hcl, h0, h1, h2, step_state, mark_processed, mem_str]
        · by_cases h3 : env.post_ok u
          · simp [process_notif_server, hu, hcl, h0, h1, h2, h3, step_state, mark_processed,
              mem_str]
          · simp [process_notif_server, hu, hcl, h0, h1, h2, h3, step_state, mark_processed,
              mem_str]

theorem C2_witness :
    n1.uri = some "n1" ∧
    classify_bot cfg0 st_empty.mem n1 = Decision.eligible ∧
    fetch_thread_context "???" (env_post_fail.thread "n1") =
      ("", "@alice.bsky.social: hi bot") ∧
    env_post_fail.post_ok "n1" = false ∧
    process_notif_bot cfg0 env_post_fail st_empty n1 =
      .exn st_empty
        [.thread_fetch "n1", .model_call "n1",
         .send "n1" (reply_root_uri n1 "n1")
           (truncate_reply (env_post_fail.reply "" "@alice.bsky.social: hi bot"))] ∧
    classify_server cfg0 sst_empty.processed_run "n1" n1 = Decision.eligible ∧
    mem_str "n1"
      (step_state (process_notif_server cfg0 env_post_fail sst_empty n1)).processed_run
      = true := by
  refine ⟨rfl, by decide, by decide, rfl, ?_, by decide, ?_⟩
  · exact (((C2_deferred_write_amended cfg0 env_post_fail n1 "n1" rfl).1 st_empty (by decide)
      "" "@alice.bsky.social: hi bot" (by decide)).2.2.2 (by decide) (by decide) rfl)
  · exact (C2_deferred_write_amended cfg0 env_post_fail n1 "n1" rfl).2 sst_empty (by decide)

/-- C5: an exception raised by the per-notification work is caught at the
cycle level in both variants: it abandons the rest of that batch, the state
already reached is kept, and the loop proceeds with the remaining cycles; a
failed notification fetch likewise leaves the loop running.  No single bad
notification, failed model call or failed post terminates the run. -/
theorem C5_exception_containment (cfg : BotCfg) (env : Env) :
    (∀ (st st1 st2 : BotState) (pre post : List Notif) (n : Notif) (rest : List RunItem)
       (evs1 evs2 : List Event),
      process_batch_bot cfg env st pre = (st1, evs1, false) →
      process_notif_bot cfg env st1 n = .exn st2 evs2 →
      process_batch_bot cfg env st (pre ++ n :: post) = (st2, evs1 ++ evs2, true) ∧
      run_bot cfg st (.cycle ⟨some (pre ++ n :: post), env⟩ :: rest) =
        ((run_bot cfg st2 rest).1, evs1 ++ evs2 ++ (run_bot cfg st2 rest).2)) ∧
    (∀ (st : BotState) (rest : List RunItem),
      run_bot cfg st (.cycle ⟨none, env⟩ :: rest) = run_bot cfg st rest) ∧
    (∀ (st st1 st2 : ServerState) (batch pre post : List Notif) (n : Notif)
       (rest : List CycleInput) (evs1 evs2 : List Event),
      sort_notifications batch = pre ++ n :: post →
      process_batch_server cfg env st pre = (st1, evs1, false) →
      process_notif_server cfg env st1 n = .exn st2 evs2 →
      run_server cfg st (⟨some batch, env⟩ :: rest) =
        ((run_server cfg st2 rest).1, evs1 ++ evs2 ++ (run_server cfg st2 rest).2)) ∧
    (∀ (st : ServerState) (rest : List CycleInput),
      run_server cfg st (⟨none, env⟩ :: rest) = run_server cfg st rest) := by
  refine ⟨?_, ?_, ?_, ?_⟩
  · intro st st1 st2 pre post n rest evs1 evs2 h1 h2
    have hb := process_batch_bot_exn_at cfg env pre st st1 st2 n post evs1 evs2 h1 h2
    refine ⟨hb, ?_⟩
    simp [run_bot, run_cycle_bot, hb, List.append_assoc]
  · intro st rest
    simp [run_bot, run_cycle_bot]
  · intro st st1 st2 batch pre post n rest evs1 evs2 hsort h1 h2
    have hb := process_batch_server_exn_at cfg env pre st st1 st2 n post evs1 evs2 h1 h2
    simp [run_server, run_cycle_server, hsort, hb, List.append_assoc]
  · intro st rest
    simp [run_server, run_cycle_server]

theorem C5_witness :
    process_batch_bot cfg0 env_post_fail st_empty [] = (st_empty, [], false) ∧
    process_notif_bot cfg0 env_post_fail st_empty n1 =
      .exn st_empty [.thread_fetch "n1", .model_call "n1", .send "n1" "n1" "hey lol"] ∧
    run_bot cfg0 st_empty
        (.cycle ⟨some ([] ++ n1 :: [n_wrong]), env_post_fail⟩ ::
          [.cycle ⟨some [n_wrong], env_post_fail⟩]) =
      ((run_bot cfg0 st_empty [.cycle ⟨some [n_wrong], env_post_fail⟩]).1,
        [] ++ [.thread_fetch "n1", .model_call "n1", .send "n1" "n1" "hey lol"] ++
          (run_bot cfg0 st_empty [.cycle ⟨some [n_wrong], env_post_fail⟩]).2) := by
  refine ⟨by decide, by decide, ?_⟩
  exact ((C5_exception_containment cfg0 env_post_fail).1 st_empty st_empty st_empty []
    [n_wrong] n1 [.cycle ⟨some [n_wrong], env_post_fail⟩] []
    [.thread_fetch "n1", .model_call "n1", .send "n1" "n1" "hey lol"]
    (by decide) (by decide)).2

/-- C6 counterexample: with the first model returning a well-formed payload
whose trimmed text is empty and the second model a well-formed non-empty
payload, the generator returns empty having invoked only the first model,
instead of continuing to the first non-empty combination as claimed. -/
theorem C6_counterexample :
    get_openrouter_reply c6_env ["m1", "m2"] = ("", ["m1"]) ∧
    attempt_text (c6_env "m2") = some "hi" ∧
    py_strip "hi" = "hi" ∧ "hi" ≠ "" := by
  decide

/-- C6 (amended): the generator tries the configured models strictly in order
and stops at the first one returning a well-formed payload, returning its
whitespace-trimmed text even when that text is empty and invoking nothing
after it; on every failure outcome it moves to the next model, and if every
model fails it returns empty rather than raising. -/
theorem C6_fallback_amended (env : String → HttpResult) (models : List String) :
    ((∀ m, m ∈ models → attempt_text (env m) = none) →
      get_openrouter_reply env models = ("", models)) ∧
    (∀ (pre post : List String) (m : String) (c : String),
      models = pre ++ m :: post →
      (∀ x, x ∈ pre → attempt_text (env x) = none) →
      attempt_text (env m) = some c →
      get_openrouter_reply env models = (py_strip c, pre ++ [m])) :=
  ⟨get_openrouter_exhausted env models,
   fun pre post m c hmod hpre hm => by
     rw [hmod]
     exact get_openrouter_first_wf env pre m post c hpre hm⟩

theorem C6_witness :
    (∀ x, x ∈ (["m1", "m2"] : List String) → attempt_text (c6w_env x) = none) ∧
    attempt_text (c6w_env "m3") = some "hey" ∧
    get_openrouter_reply c6w_env (["m1", "m2"] ++ "m3" :: []) =
      (py_strip "hey", ["m1", "m2"] ++ ["m3"]) ∧
    get_openrouter_reply c6w_env ["m1", "m2"] = ("", ["m1", "m2"]) := by
  have hpre : ∀ x, x ∈ (["m1", "m2"] : List String) → attempt_text (c6w_env x) = none := by
    decide
  refine ⟨hpre, by decide, ?_, ?_⟩
  · exact (C6_fallback_amended c6w_env (["m1", "m2"] ++ "m3" :: [])).2 ["m1", "m2"] [] "m3"
      "hey" rfl hpre (by decide)
  · exact (C6_fallback_amended c6w_env ["m1", "m2"]).1 hpre

/-- C7: in the server HTTP fallback, a 429 status under the primary credential
with a secondary available abandons the remaining models and the whole model
list is retried under the next credential, a 429 without that option and every
other failure (timeout, other HTTP error status, malformed shape, transport
error) move to the next model under the same credential. -/
theorem C7_rate_limit_failover (env : Nat → String → HttpResult) (ms : List String)
    (m : String) (k : Nat) (sec : Bool) (c : Option String) :
    (env 0 m = .response 429 c →
      try_models_server env 0 true (m :: ms) = (none, [(0, m)])) ∧
    (env k m = .response 429 c → (k = 0 → sec = false) →
      try_models_server env k sec (m :: ms) =
        ((try_models_server env k sec ms).1, (k, m) :: (try_models_server env k sec ms).2)) ∧
    (moves_next_model (env k m) →
      try_models_server env k sec (m :: ms) =
        ((try_models_server env k sec ms).1, (k, m) :: (try_models_server env k sec ms).2)) ∧
    ((try_models_server env 0 true ms).1 = none →
      (∀ t, (try_models_server env 1 true ms).1 = some t →
        get_openrouter_reply_server env true ms =
          (t, (try_models_server env 0 true ms).2 ++ (try_models_server env 1 true ms).2)) ∧
      ((try_models_server env 1 true ms).1 = none →
        get_openrouter_reply_server env true ms =
          ("", (try_models_server env 0 true ms).2 ++ (try_models_server env 1 true ms).2))) := by
  refine ⟨?_, ?_, ?_, ?_⟩
  · intro h
    simp [try_models_server, h]
  · intro h hks
    by_cases hk : k = 0
    · subst hk
      have hsec : sec = false := hks rfl
      subst hsec
      simp [try_models_server, h]
    · have hkb : (k == 0) = false := by simp [hk]
      simp [try_models_server, h, hkb]
  · intro h
    rcases h with h | h | ⟨status, content, hre, hs, hrest⟩
    · simp [try_models_server, h]
    · simp [try_models_server, h]
    · have hsb : (status == 429) = false := by simp [hs]
      rcases hrest with herr | hnone
      · simp [try_models_server, hre, hsb, herr]
      · subst hnone
        by_cases herr : http_error_status status = true
        · simp [try_models_server, hre, hsb, herr]
        · simp [try_models_server, hre, hsb, herr]
  · intro h0
    constructor
    · intro t h1
      simp [get_openrouter_reply_server, h0, h1]
    · intro h1
      simp [get_openrouter_reply_server, h0, h1]

theorem C7_witness :
    c7_env 0 "a" = .response 429 none ∧
    try_models_server c7_env 0 true ("a" :: ["b"]) = (none, [(0, "a")]) ∧
    c7_env 1 "a" = .response 429 none ∧
    try_models_server c7_env 1 true ("a" :: ["b"]) =
      ((try_models_server c7_env 1 true ["b"]).1,
        (1, "a") :: (try_models_server c7_env 1 true ["b"]).2) ∧
    c7_env 0 "b" = .timeout ∧
    try_models_server c7_env 0 true ("b" :: []) =
      ((try_models_server c7_env 0 true []).1,
        (0, "b") :: (try_models_server c7_env 0 true []).2) ∧
    get_openrouter_reply_server c7_env true ["a", "b"] =
      ("sec", (try_models_server c7_env 0 true ["a", "b"]).2 ++
        (try_models_server c7_env 1 true ["a", "b"]).2) := by
  refine ⟨by decide, ?_, by decide, ?_, by decide, ?_, ?_⟩
  · exact (C7_rate_limit_failover c7_env ["b"] "a" 0 true none).1 (by decide)
  · exact (C7_rate_limit_failover c7_env ["b"] "a" 1 true none).2.1 (by decide)
      (fun h => absurd h (by decide))
  · exact (C7_rate_limit_failover c7_env [] "b" 0 true none).2.2.1 (Or.inl (by decide))
  · exact ((C7_rate_limit_failover c7_env ["a", "b"] "x" 0 true none).2.2.2 (by decide)).1
      "sec" (by decide)

end ZAi
